import Mathlib

/-!
Verification of the TnP portal's application status machine and campaign
dispatch engine, as implemented under `backend/app/`.  Statuses are kept as
strings, exactly as the code compares them; database rows become Lean
structures; each HTTP handler becomes a pure function from the relevant row
values (plus the current time where `datetime.utcnow()` is read) to an
`Except`-style outcome, raising before any mutation exactly where the code
raises.
-/

namespace TnP

/-- Error taxonomy of the API layer: each constructor corresponds to one of the
`HTTPException` shapes raised by the handlers. -/
inductive ApiErr where
  | notFound
  | forbidden
  | invalidTransition (current : String)
  | deadlinePassed
deriving DecidableEq, Repr

/-- `applications` row: the columns the status machine reads or writes
(`models.py`, class `Application`).  Timestamps are abstract instants
(`Nat`). -/
structure Application where
  student_id : Nat
  job_id : Nat
  status : String
  offer_released_at : Option Nat := none
  offer_deadline : Option Nat := none
  offer_responded_at : Option Nat := none
deriving DecidableEq, Repr

/-- `profiles` row: the column the accept-offer action writes
(`models.py`, class `Profile`). -/
structure Profile where
  user_id : Nat
  is_placed : Bool
deriving DecidableEq, Repr

/-- The ten legal application statuses (CHECK constraint
`check_application_status` in `models.py`, and the `Literal` type of
`ApplicationStatusUpdate` in `schemas/application.py`). -/
def APPLICATION_STATUSES : List String :=
  ["APPLIED", "SELECTED", "IN_PROCESS", "INTERVIEW_SCHEDULED",
   "SHORTLISTED", "OFFER_RELEASED", "PLACED", "OFFER_DECLINED",
   "WITHDRAWN", "REJECTED"]

/-- `ADMIN_TRANSITIONS` dict of `api/actions.py`. -/
def ADMIN_TRANSITIONS : List (String × List String) :=
  [("APPLIED", ["SELECTED", "REJECTED"]),
   ("SELECTED", ["IN_PROCESS", "REJECTED"]),
   ("IN_PROCESS", ["INTERVIEW_SCHEDULED", "REJECTED"]),
   ("INTERVIEW_SCHEDULED", ["SHORTLISTED", "REJECTED"]),
   ("SHORTLISTED", ["OFFER_RELEASED", "REJECTED"]),
   ("OFFER_RELEASED", ["REJECTED"])]

/-- `STUDENT_TRANSITIONS` dict of `api/actions.py`. -/
def STUDENT_TRANSITIONS : List (String × List String) :=
  [("APPLIED", ["WITHDRAWN"]),
   ("OFFER_RELEASED", ["PLACED", "OFFER_DECLINED"])]

/-- `TERMINAL_STATES` list of `api/actions.py`. -/
def TERMINAL_STATES : List String :=
  ["PLACED", "OFFER_DECLINED", "WITHDRAWN", "REJECTED"]

/-- Python's `transitions.get(current_status, [])`. -/
def dictGet (transitions : List (String × List String)) (k : String) :
    List String :=
  match transitions.find? (fun p => p.1 == k) with
  | some p => p.2
  | none => []

/-- `validate_transition` of `api/actions.py`: a transition is valid when the
current status is not terminal and the target is in the allowed list for the
current status. -/
def validate_transition (current_status new_status : String)
    (transitions : List (String × List String)) : Bool :=
  if TERMINAL_STATES.contains current_status then false
  else (dictGet transitions current_status).contains new_status

/-- Common shape of the five table-driven admin actions of `api/actions.py`
(`action_select`, `action_start_process`, `action_schedule_interview`,
`action_shortlist`, and the status part of `action_release_offer`): 404 when
the row is missing, 400 via `validate_transition` naming the current status,
otherwise set `status = target`. -/
def admin_table_action (stored : Option Application) (target : String) :
    Except ApiErr Application :=
  match stored with
  | none => Except.error ApiErr.notFound
  | some app =>
    if validate_transition app.status target ADMIN_TRANSITIONS then
      Except.ok { app with status := target }
    else
      Except.error (ApiErr.invalidTransition app.status)

/-- The application row as stored after an `admin_table_action` attempt: the
updated row on success, the untouched row otherwise (the handler raises before
assigning `app.status`). -/
def admin_table_stored (app : Application) (target : String) : Application :=
  match admin_table_action (some app) target with
  | Except.ok a => a
  | Except.error _ => app

/-- `action_reject` of `api/actions.py`: allowed from any non-terminal state,
bypassing the transition table. -/
def action_reject (stored : Option Application) : Except ApiErr Application :=
  match stored with
  | none => Except.error ApiErr.notFound
  | some app =>
    if TERMINAL_STATES.contains app.status then
      Except.error (ApiErr.invalidTransition app.status)
    else
      Except.ok { app with status := "REJECTED" }

/-- `update_application_status` of `api/applications.py` (PATCH
`/applications/{id}/status`): after the 404 check it assigns
`application.status = payload.status` with no further validation.  The
`target` argument ranges over the `Literal` alternatives of
`ApplicationStatusUpdate`. -/
def update_application_status (stored : Option Application) (target : String) :
    Except ApiErr Application :=
  match stored with
  | none => Except.error ApiErr.notFound
  | some app => Except.ok { app with status := target }

/-- `withdraw_application` of `api/applications.py` (PATCH
`/applications/{id}/withdraw`): 404, then ownership check, then the
status-must-be-APPLIED check, then `application.status = "REJECTED"` (the
handler's own docstring: "Sets status to REJECTED."). -/
def withdraw_application (student_id : Nat) (stored : Option Application) :
    Except ApiErr Application :=
  match stored with
  | none => Except.error ApiErr.notFound
  | some app =>
    if app.student_id != student_id then
      Except.error ApiErr.forbidden
    else if app.status != "APPLIED" then
      Except.error (ApiErr.invalidTransition app.status)
    else
      Except.ok { app with status := "REJECTED" }

/-- The row stored after a withdraw attempt. -/
def withdraw_stored (student_id : Nat) (app : Application) : Application :=
  match withdraw_application student_id (some app) with
  | Except.ok a => a
  | Except.error _ => app

/-- Python `timedelta(days = d)`, with time measured in seconds. -/
def timedelta_days (d : Nat) : Nat := d * 86400

/-- `action_release_offer` of `api/actions.py`: table-validated transition to
`OFFER_RELEASED`, stamping `offer_released_at = now` and
`offer_deadline = now + timedelta(days = deadline_days)`. -/
def action_release_offer (stored : Option Application) (deadline_days : Nat)
    (now : Nat) : Except ApiErr Application :=
  match stored with
  | none => Except.error ApiErr.notFound
  | some app =>
    if validate_transition app.status "OFFER_RELEASED" ADMIN_TRANSITIONS then
      Except.ok { app with
        status := "OFFER_RELEASED",
        offer_released_at := some now,
        offer_deadline := some (now + timedelta_days deadline_days) }
    else
      Except.error (ApiErr.invalidTransition app.status)

/-- The Python truthiness-guarded deadline test of `action_accept_offer`:
`app.offer_deadline and datetime.utcnow() > app.offer_deadline`. -/
def deadline_passed (deadline : Option Nat) (now : Nat) : Bool :=
  match deadline with
  | some d => decide (now > d)
  | none => false

/-- `action_accept_offer` of `api/actions.py`: 404, ownership check,
`validate_transition` against `STUDENT_TRANSITIONS` with target `PLACED`,
deadline check, then set `status = "PLACED"`, stamp `offer_responded_at`, and
flip `profile.is_placed` when the profile row exists. -/
def action_accept_offer (student_id : Nat) (stored : Option Application)
    (profile : Option Profile) (now : Nat) :
    Except ApiErr (Application × Option Profile) :=
  match stored with
  | none => Except.error ApiErr.notFound
  | some app =>
    if app.student_id != student_id then
      Except.error ApiErr.forbidden
    else if ¬ validate_transition app.status "PLACED" STUDENT_TRANSITIONS then
      Except.error (ApiErr.invalidTransition app.status)
    else if deadline_passed app.offer_deadline now then
      Except.error ApiErr.deadlinePassed
    else
      Except.ok
        ({ app with status := "PLACED", offer_responded_at := some now },
         profile.map (fun p => { p with is_placed := true }))

/-- The (application, profile) pair as stored after an accept-offer attempt:
the handler raises before mutating either row. -/
def accept_offer_stored (student_id : Nat) (app : Application)
    (profile : Option Profile) (now : Nat) : Application × Option Profile :=
  match action_accept_offer student_id (some app) profile now with
  | Except.ok s => s
  | Except.error _ => (app, profile)

theorem validate_transition_true_iff (c t : String)
    (transitions : List (String × List String)) :
    validate_transition c t transitions = true ↔
      (c ∉ TERMINAL_STATES ∧ t ∈ dictGet transitions c) := by
  unfold validate_transition
  by_cases h : c ∈ TERMINAL_STATES
  · simp [h, List.elem_iff]
  · simp [h, List.elem_iff]

/-- C1: an admin-table transition attempt succeeds iff the current status is
non-terminal and the target is in the admin table's allowed set for the
current status; a rejected attempt leaves the stored status unchanged; and the
cross-cutting `action_reject` agrees with the table-driven attempt at target
`REJECTED` on every legal status. -/
theorem admin_transition_success_iff (app : Application) (target : String) :
    ((admin_table_action (some app) target).isOk = true ↔
      (app.status ∉ TERMINAL_STATES ∧ target ∈ dictGet ADMIN_TRANSITIONS app.status))
    ∧ (¬ (app.status ∉ TERMINAL_STATES ∧ target ∈ dictGet ADMIN_TRANSITIONS app.status) →
        admin_table_stored app target = app)
    ∧ (app.status ∈ APPLICATION_STATUSES →
        action_reject (some app) = admin_table_action (some app) "REJECTED")
    := by
  have hok : (admin_table_action (some app) target).isOk =
      validate_transition app.status target ADMIN_TRANSITIONS := by
    unfold admin_table_action
    by_cases hv : validate_transition app.status target ADMIN_TRANSITIONS <;>
      simp [hv, Except.isOk, Except.toBool]
  refine ⟨?_, ?_, ?_⟩
  · rw [hok]
    exact validate_transition_true_iff app.status target ADMIN_TRANSITIONS
  · intro hcond
    have hv : validate_transition app.status target ADMIN_TRANSITIONS = false := by
      by_contra h
      simp only [Bool.not_eq_false] at h
      exact hcond ((validate_transition_true_iff app.status target ADMIN_TRANSITIONS).mp h)
    simp [admin_table_stored, admin_table_action, hv]
  · intro h
    simp only [APPLICATION_STATUSES, List.mem_cons, List.not_mem_nil, or_false] at h
    rcases h with h | h | h | h | h | h | h | h | h | h <;>
      simp [action_reject, admin_table_action, validate_transition, dictGet,
        TERMINAL_STATES, ADMIN_TRANSITIONS, h]

/-- Witness for C1 at a concrete input: a `PLACED` (terminal) application, for
which the select attempt is rejected and the stored row is unchanged. -/
theorem admin_transition_success_iff_witness :
    admin_table_stored { student_id := 1, job_id := 2, status := "PLACED" }
      "SELECTED" = { student_id := 1, job_id := 2, status := "PLACED" } :=
  (admin_transition_success_iff
    { student_id := 1, job_id := 2, status := "PLACED" } "SELECTED").2.1
    (by decide)

/-- C2: the admin PATCH status endpoint accepts any of the ten status values
and, whenever the application exists, unconditionally overwrites the status
with the requested value and succeeds — for every current status, including
the terminal ones; a missing application is the only failure. -/
theorem update_status_unconditional (app : Application) (target : String)
    (_htarget : target ∈ APPLICATION_STATUSES) :
    update_application_status (some app) target =
      Except.ok { app with status := target }
    ∧ update_application_status none target = Except.error ApiErr.notFound := by
  exact ⟨rfl, rfl⟩

/-- Witness for C2 at a concrete input: overwriting a terminal `PLACED`
application back to `APPLIED` succeeds. -/
theorem update_status_unconditional_witness :
    update_application_status
        (some { student_id := 1, job_id := 2, status := "PLACED" }) "APPLIED" =
      Except.ok { student_id := 1, job_id := 2, status := "APPLIED" } :=
  (update_status_unconditional
    { student_id := 1, job_id := 2, status := "PLACED" } "APPLIED"
    (by decide)).1

/-- A concrete `APPLIED` application owned by student 7, used for the C3
scenario. -/
def c3App : Application := { student_id := 7, job_id := 3, status := "APPLIED" }

/-- C3 counterexample: withdrawing an owned `APPLIED` application succeeds but
stores status `REJECTED`, not `WITHDRAWN` as the claim states. -/
theorem withdraw_sets_rejected_counterexample :
    withdraw_application 7 (some c3App) =
      Except.ok { c3App with status := "REJECTED" }
    ∧ ("REJECTED" : String) ≠ "WITHDRAWN" := by
  exact ⟨rfl, by decide⟩

/-- C3 amended: a withdraw attempt on an owned `APPLIED` application succeeds
and sets the status to `REJECTED` (not `WITHDRAWN`); a second withdraw attempt
then fails with the invalid-transition error naming the current status and
leaves the stored status unchanged. -/
theorem withdraw_then_rewithdraw (sid : Nat) (app : Application)
    (hown : app.student_id = sid) (hst : app.status = "APPLIED") :
    withdraw_application sid (some app) =
      Except.ok { app with status := "REJECTED" }
    ∧ withdraw_application sid (some { app with status := "REJECTED" }) =
        Except.error (ApiErr.invalidTransition "REJECTED")
    ∧ withdraw_stored sid { app with status := "REJECTED" } =
        { app with status := "REJECTED" } := by
  subst hown
  refine ⟨?_, ?_, ?_⟩ <;>
    simp [withdraw_application, withdraw_stored, hst]

/-- Witness for the amended C3 at the concrete scenario application. -/
theorem withdraw_then_rewithdraw_witness :
    withdraw_application 7 (some { c3App with status := "REJECTED" }) =
      Except.error (ApiErr.invalidTransition "REJECTED") :=
  (withdraw_then_rewithdraw 7 c3App rfl rfl).2.1

/-- C4: for an owned `OFFER_RELEASED` application whose `offer_deadline` lies
strictly before the current time, the accept-offer action fails with the
deadline-passed error and mutates neither the application row nor the
profile's placed flag. -/
theorem accept_offer_deadline_enforced (sid : Nat) (app : Application)
    (profile : Option Profile) (now d : Nat)
    (hown : app.student_id = sid) (hst : app.status = "OFFER_RELEASED")
    (hdl : app.offer_deadline = some d) (hlate : now > d) :
    action_accept_offer sid (some app) profile now =
      Except.error ApiErr.deadlinePassed
    ∧ accept_offer_stored sid app profile now = (app, profile) := by
  subst hown
  have hv : validate_transition app.status "PLACED" STUDENT_TRANSITIONS = true := by
    rw [hst]; decide
  refine ⟨?_, ?_⟩ <;>
    simp [action_accept_offer, accept_offer_stored, hv, deadline_passed, hdl, hlate]

/-- Witness for C4 at a concrete input: deadline at instant 100, accept
attempted at instant 101. -/
theorem accept_offer_deadline_enforced_witness :
    action_accept_offer 7
        (some { student_id := 7, job_id := 3, status := "OFFER_RELEASED",
                offer_deadline := some 100 })
        (some { user_id := 7, is_placed := false }) 101 =
      Except.error ApiErr.deadlinePassed :=
  (accept_offer_deadline_enforced 7
    { student_id := 7, job_id := 3, status := "OFFER_RELEASED",
      offer_deadline := some 100 }
    (some { user_id := 7, is_placed := false }) 101 100 rfl rfl rfl
    (by decide)).1

/-- C5: releasing an offer on a `SHORTLISTED` application with
`deadline_days = 0` produces a record whose `offer_deadline` equals its
`offer_released_at`, and every accept-offer attempt by the owner at any
strictly later instant fails as deadline-passed. -/
theorem release_zero_deadline_then_accept_fails (app : Application)
    (profile : Option Profile) (now later : Nat)
    (hst : app.status = "SHORTLISTED") (hlater : later > now) :
    ∃ released, action_release_offer (some app) 0 now = Except.ok released
      ∧ released.offer_deadline = released.offer_released_at
      ∧ action_accept_offer app.student_id (some released) profile later =
          Except.error ApiErr.deadlinePassed := by
  have hv : validate_transition app.status "OFFER_RELEASED" ADMIN_TRANSITIONS = true := by
    rw [hst]; decide
  refine ⟨{ app with status := "OFFER_RELEASED", offer_released_at := some now, offer_deadline := some (now + timedelta_days 0) }, ?_, ?_, ?_⟩
  · simp [action_release_offer, hv]
  · simp [timedelta_days]
  · have hv2 : validate_transition "OFFER_RELEASED" "PLACED" STUDENT_TRANSITIONS = true := by
      decide
    simp [action_accept_offer, hv2, deadline_passed, timedelta_days, hlater]

/-- Witness for C5 at a concrete input: release at instant 50, accept attempt
at instant 51. -/
theorem release_zero_deadline_then_accept_fails_witness :
    ∃ released, action_release_offer
        (some { student_id := 7, job_id := 3, status := "SHORTLISTED" }) 0 50 =
        Except.ok released
      ∧ released.offer_deadline = released.offer_released_at
      ∧ action_accept_offer 7 (some released) none 51 =
          Except.error ApiErr.deadlinePassed :=
  release_zero_deadline_then_accept_fails
    { student_id := 7, job_id := 3, status := "SHORTLISTED" } none 50 51 rfl
    (by decide)


/-! ### Template renderer (`EmailService.render_template`, `services/email_service.py`)

`re.sub(r'\\{\\{(\\w+)\\}\\}', replacer, template)` scans left to right; at each
position a match requires two opening braces, a non-empty maximal run of word
characters, and two closing braces immediately after.  `replacer` substitutes
`variables.get(name)` when the token name is a key and the whole match
verbatim otherwise (`variables.get(var_name, match.group(0))`); the `.strip()`
on the captured group is the identity since word characters contain no
whitespace.  The same substitution loop appears inline in
`execute_whatsapp_campaign` for the fixed four-variable mapping. -/


def isWordChar (c : Char) : Bool := c.isAlpha || c.isDigit || c = '_'

def placeholderMatch (cs : List Char) : Option (List Char × List Char) :=
  match cs with
  | c1 :: c2 :: rest =>
    if c1 = '{' ∧ c2 = '{' then
      match rest.takeWhile isWordChar, rest.dropWhile isWordChar with
      | a :: l, d1 :: d2 :: tail =>
        if d1 = '}' ∧ d2 = '}' then some (a :: l, tail) else none
      | _, _ => none
    else none
  | _ => none

theorem placeholderMatch_chars {cs w tail : List Char}
    (h : placeholderMatch cs = some (w, tail)) :
    cs = '{' :: '{' :: (w ++ '}' :: '}' :: tail)
    ∧ w ≠ [] ∧ w.all isWordChar = true := by
  unfold placeholderMatch at h
  split at h
  case h_2 => exact absurd h (by simp)
  rename_i c1 c2 rest
  split at h
  case isFalse => exact absurd h (by simp)
  rename_i hb
  obtain ⟨hb1, hb2⟩ := hb
  subst hb1; subst hb2
  have hsplit : rest.takeWhile isWordChar ++ rest.dropWhile isWordChar = rest :=
    List.takeWhile_append_dropWhile isWordChar rest
  split at h
  case h_2 => exact absurd h (by simp)
  rename_i a l d1 d2 tl ht hd
  split at h
  case isFalse => exact absurd h (by simp)
  rename_i hb3
  obtain ⟨hd1, hd2⟩ := hb3
  subst hd1; subst hd2
  simp only [Option.some.injEq, Prod.mk.injEq] at h
  obtain ⟨hw, htl⟩ := h
  subst hw; subst htl
  have hmem : ∀ x ∈ rest.takeWhile isWordChar, isWordChar x :=
    fun x hx => List.mem_takeWhile_imp hx
  refine ⟨?_, by simp, ?_⟩
  · rw [← hsplit, ← ht, ← hd]
  · rw [← ht]
    simp only [List.all_eq_true]
    exact fun x hx => hmem x hx

def substToken (vars : List (String × String)) (w : List Char) : List Char :=
  match vars.lookup (String.mk w) with
  | some v => v.data
  | none => '{' :: '{' :: (w ++ '}' :: '}' :: [])

def renderFuel (vars : List (String × String)) : Nat → List Char → List Char
  | _, [] => []
  | 0, cs => cs
  | fuel + 1, c :: cs =>
    match placeholderMatch (c :: cs) with
    | some (w, tail) => substToken vars w ++ renderFuel vars fuel tail
    | none => c :: renderFuel vars fuel cs

def render_template (vars : List (String × String)) (template : String) : String :=
  String.mk (renderFuel vars template.data.length template.data)

inductive Seg where
  | lit (c : Char)
  | ph (w : List Char)
deriving DecidableEq, Repr

def segChars : Seg → List Char
  | Seg.lit c => [c]
  | Seg.ph w => '{' :: '{' :: (w ++ '}' :: '}' :: [])

def renderSeg (vars : List (String × String)) : Seg → List Char
  | Seg.lit c => [c]
  | Seg.ph w => substToken vars w

def tokenizeFuel : Nat → List Char → List Seg
  | _, [] => []
  | 0, _ => []
  | fuel + 1, c :: cs =>
    match placeholderMatch (c :: cs) with
    | some (w, tail) => Seg.ph w :: tokenizeFuel fuel tail
    | none => Seg.lit c :: tokenizeFuel fuel cs

def tokenize (cs : List Char) : List Seg := tokenizeFuel cs.length cs

theorem renderFuel_spec (vars : List (String × String)) :
    ∀ fuel cs, cs.length ≤ fuel →
    renderFuel vars fuel cs = ((tokenizeFuel fuel cs).map (renderSeg vars)).flatten
    ∧ ((tokenizeFuel fuel cs).map segChars).flatten = cs
    ∧ ∀ w, Seg.ph w ∈ tokenizeFuel fuel cs → w ≠ [] ∧ w.all isWordChar = true := by
  intro fuel
  induction fuel with
  | zero =>
    intro cs hcs
    have : cs = [] := List.length_eq_zero.mp (Nat.le_zero.mp hcs)
    subst this
    simp [renderFuel, tokenizeFuel]
  | succ fuel ih =>
    intro cs hcs
    match cs with
    | [] => simp [renderFuel, tokenizeFuel]
    | c :: cs =>
      match hm : placeholderMatch (c :: cs) with
      | some (w, tail) =>
        obtain ⟨hchars, hne, hwf⟩ := placeholderMatch_chars hm
        have hlen : tail.length ≤ fuel := by
          have := congrArg List.length hchars
          simp at this hcs
          omega
        obtain ⟨ih1, ih2, ih3⟩ := ih tail hlen
        simp only [renderFuel, tokenizeFuel, hm]
        refine ⟨?_, ?_, ?_⟩
        · simp [renderSeg, ih1]
        · simp only [List.map_cons, List.flatten_cons, ih2, segChars]
          rw [hchars]; simp
        · intro w2 hw2
          simp only [List.mem_cons] at hw2
          rcases hw2 with hw2 | hw2
          · cases hw2; exact ⟨hne, hwf⟩
          · exact ih3 w2 hw2
      | none =>
        have hcs' : cs.length ≤ fuel := by simp at hcs; omega
        obtain ⟨ih1, ih2, ih3⟩ := ih cs hcs'
        simp only [renderFuel, tokenizeFuel, hm]
        refine ⟨?_, ?_, ?_⟩
        · simp [renderSeg, ih1]
        · simp [segChars, ih2]
        · intro w2 hw2
          simp only [List.mem_cons] at hw2
          rcases hw2 with hw2 | hw2
          · simp at hw2
          · exact ih3 w2 hw2

/-- C6: the renderer equals the segment-wise rendering of the unique
leftmost-match decomposition of the template: every placeholder whose token is
a key of the mapping is replaced by the mapped value, every placeholder with an
unknown token is reproduced verbatim (both via `renderSeg`/`substToken`), text
outside placeholders is unchanged (`segChars` of a literal segment is the
character itself), and the decomposition loses nothing (flattening it gives
back the template); every placeholder segment carries a non-empty word-run
token. -/
theorem render_template_spec (vars : List (String × String)) (template : String) :
    (render_template vars template).data =
      ((tokenize template.data).map (renderSeg vars)).flatten
    ∧ ((tokenize template.data).map segChars).flatten = template.data
    ∧ ∀ w, Seg.ph w ∈ tokenize template.data → w ≠ [] ∧ w.all isWordChar = true :=
  renderFuel_spec vars template.data.length template.data le_rfl

/-- Witness for C6 at a concrete template containing one known placeholder. -/
theorem render_template_spec_witness :
    "student_name".data ≠ [] ∧ "student_name".data.all isWordChar = true :=
  (render_template_spec [("student_name", "Asha")]
      "Hi \x7b\x7bstudent_name\x7d\x7d").2.2 "student_name".data (by decide)

/-! ### Campaign dispatch engine
(`api/whatsapp_campaigns.py`, `api/email_campaigns.py`, `api/campaigns.py`,
`api/webhooks.py`).  An execution unit is modelled as a pure function over the
campaign's rows: provider calls and student lookups become per-recipient
environment values, and the commits of the sequential loop become the
resulting row list. -/

/-- Result of one provider send call (`twilio_service.send_whatsapp_message` /
`email_service.send_email`): success carries the provider message id, failure
the error text. -/
inductive SendResult where
  | success (sid : String)
  | failure (err : String)
deriving DecidableEq, Repr

/-- `whatsapp_logs` row: the fields `execute_whatsapp_campaign` and the retry
endpoint read or write. -/
structure WLog where
  student_id : Nat
  status : String
  message_sid : Option String := none
  error_message : Option String := none
  sent_at : Option Nat := none
deriving DecidableEq, Repr

/-- `email_logs` row: the fields `execute_email_campaign` and the retry
endpoint read or write. -/
structure ELog where
  student_id : Nat
  status : String
  error_message : Option String := none
  sent_at : Option Nat := none
deriving DecidableEq, Repr

/-- `call_logs` row (`models.py`, class `CallLog`): the fields the voice
dispatcher, retry and status webhook read or write. -/
structure CallLog where
  student_id : Nat
  status : String
  twilio_sid : Option String := none
  recording_url : Option String := none
  transcription_text : Option String := none
  duration : Option Nat := none
deriving DecidableEq, Repr

/-- The rate-limit test of `execute_whatsapp_campaign`:
`"63038" in str(result_or_error)`. -/
def isRateLimited (err : String) : Bool := decide ("63038".data.IsInfix err.data)

/-- The send-and-update body of `execute_whatsapp_campaign` for one pending
log: given the outcome of the first provider call and (consulted only on the
single rate-limit retry) of the second, returns the updated log together with
the number of provider send calls made. -/
def whatsappSendStep (log : WLog) (now : Nat) (first second : SendResult) :
    WLog × Nat :=
  match first with
  | SendResult.success sid =>
    ({ log with status := "SENT", message_sid := some sid, sent_at := some now }, 1)
  | SendResult.failure err =>
    if isRateLimited err then
      match second with
      | SendResult.success sid =>
        ({ log with status := "SENT", message_sid := some sid, sent_at := some now }, 2)
      | SendResult.failure err2 =>
        ({ log with status := "FAILED", error_message := some err2 }, 2)
    else
      ({ log with status := "FAILED", error_message := some err }, 1)

/-- The send-and-update body of `execute_email_campaign` for one pending log:
exactly one provider call, `SENT` with the timestamp on success, `FAILED` with
the error text on failure. -/
def emailSendStep (log : ELog) (now : Nat) (result : SendResult) : ELog × Nat :=
  match result with
  | SendResult.success _ =>
    ({ log with status := "SENT", sent_at := some now }, 1)
  | SendResult.failure err =>
    ({ log with status := "FAILED", error_message := some err }, 1)

/-- Per-recipient environment of the WhatsApp execution unit: the student's
profile phone (`none` when student, profile or phone is missing) and the
provider outcomes of the first send and of the single possible retry. -/
structure WEnv where
  phone : Option String
  first : SendResult
  second : SendResult
deriving DecidableEq, Repr

/-- Loop body of `execute_whatsapp_campaign` for one row.  The query loads the
rows that are `PENDING`; mapping this over all rows is equivalent because
non-`PENDING` rows are not touched by the loop. -/
def whatsappProcessLog (now : Nat) (log : WLog) (env : WEnv) : WLog :=
  if log.status = "PENDING" then
    match env.phone with
    | none =>
      { log with status := "FAILED", error_message := some "Student phone not found" }
    | some _ => (whatsappSendStep log now env.first env.second).1
  else log

/-- `execute_whatsapp_campaign`: process every `PENDING` log, then flip the
campaign to COMPLETED when no log of the campaign is left `PENDING`. -/
def execute_whatsapp_campaign (campaign_status : String)
    (logs : List (WLog × WEnv)) (now : Nat) : String × List WLog :=
  let logs2 := logs.map (fun le => whatsappProcessLog now le.1 le.2)
  let pending_count := logs2.countP (fun l => l.status == "PENDING")
  (if pending_count = 0 then "COMPLETED" else campaign_status, logs2)

/-- Per-recipient environment of the email execution unit: whether the student
row exists and the provider outcome. -/
structure EEnv where
  student_exists : Bool
  result : SendResult
deriving DecidableEq, Repr

/-- Loop body of `execute_email_campaign` for one row: a pending row is first
set to the intermediate `SENDING` state, then resolved to `FAILED` (missing
student) or through `emailSendStep`. -/
def emailProcessLog (now : Nat) (log : ELog) (env : EEnv) : ELog :=
  if log.status = "PENDING" then
    let sending := { log with status := "SENDING" }
    if env.student_exists then
      (emailSendStep sending now env.result).1
    else
      { sending with status := "FAILED", error_message := some "Student not found" }
  else log

/-- `execute_email_campaign`: process every `PENDING` log, then flip the
campaign to COMPLETED when no log of the campaign is left `PENDING` or
`SENDING`. -/
def execute_email_campaign (campaign_status : String)
    (logs : List (ELog × EEnv)) (now : Nat) : String × List ELog :=
  let logs2 := logs.map (fun le => emailProcessLog now le.1 le.2)
  let pending_count :=
    logs2.countP (fun l => l.status == "PENDING" || l.status == "SENDING")
  (if pending_count = 0 then "COMPLETED" else campaign_status, logs2)

/-- Per-recipient environment of the voice execution unit: the student's
profile phone and the outcome of `twilio_service.initiate_call` (`none` when
the call raises). -/
structure CEnv where
  phone : Option String
  call_sid : Option String
deriving DecidableEq, Repr

/-- Loop body of `execute_campaign_calls` for one row. -/
def voiceProcessLog (log : CallLog) (env : CEnv) : CallLog :=
  if log.status = "PENDING" then
    match env.phone with
    | none => { log with status := "FAILED" }
    | some _ =>
      match env.call_sid with
      | some sid => { log with twilio_sid := some sid, status := "IN_PROGRESS" }
      | none => { log with status := "FAILED" }
  else log

/-- `execute_campaign_calls` (`api/campaigns.py`): processes the pending rows
but contains no completion check at all — the campaign status is never
touched by the voice execution unit. -/
def execute_campaign_calls (campaign_status : String)
    (logs : List (CallLog × CEnv)) : String × List CallLog :=
  (campaign_status, logs.map (fun le => voiceProcessLog le.1 le.2))

/-- The retryable statuses of `retry_failed_calls`. -/
def voiceRetryable : List String := ["FAILED", "IN_PROGRESS", "BUSY", "NO_ANSWER"]

/-- `retry_failed_calls` (`api/campaigns.py`): reset every FAILED / stuck call
log to PENDING, clearing `twilio_sid`, `recording_url` and
`transcription_text`; zero matches short-circuits with count 0 and no
campaign-status change; otherwise the campaign is set back to RUNNING.
Returns (campaign status, logs, retried count). -/
def retry_failed_calls (campaign_status : String) (logs : List CallLog) :
    String × List CallLog × Nat :=
  if logs.countP (fun l => voiceRetryable.contains l.status) = 0 then
    (campaign_status, logs, 0)
  else
    ("RUNNING",
     logs.map (fun l =>
       if voiceRetryable.contains l.status then
         { l with status := "PENDING", twilio_sid := none, recording_url := none, transcription_text := none }
       else l),
     logs.countP (fun l => voiceRetryable.contains l.status))

/-- `retry_failed_whatsapp_messages` (`api/whatsapp_campaigns.py`): reset
every FAILED log to PENDING clearing only `error_message` — `message_sid` and
`sent_at` are left as they are; zero failures short-circuits with count 0;
otherwise the campaign is set to RUNNING only when currently COMPLETED or
FAILED. -/
def retry_failed_whatsapp_messages (campaign_status : String)
    (logs : List WLog) : String × List WLog × Nat :=
  if (logs.filter (fun l => l.status == "FAILED")).isEmpty then
    (campaign_status, logs, 0)
  else
    ((if campaign_status = "COMPLETED" ∨ campaign_status = "FAILED" then "RUNNING"
      else campaign_status),
     logs.map (fun l =>
       if l.status == "FAILED" then { l with status := "PENDING", error_message := none }
       else l),
     (logs.filter (fun l => l.status == "FAILED")).length)

/-- `retry_failed_emails` (`api/email_campaigns.py`): reset every FAILED log
to PENDING clearing `error_message`; zero matches short-circuits with count 0;
otherwise the campaign is set back to RUNNING. -/
def retry_failed_emails (campaign_status : String) (logs : List ELog) :
    String × List ELog × Nat :=
  if logs.countP (fun l => l.status == "FAILED") = 0 then
    (campaign_status, logs, 0)
  else
    ("RUNNING",
     logs.map (fun l =>
       if l.status == "FAILED" then { l with status := "PENDING", error_message := none }
       else l),
     logs.countP (fun l => l.status == "FAILED"))

/-- `status_mapping` dict of the voice status webhook (`api/webhooks.py`). -/
def status_mapping : List (String × String) :=
  [("initiated", "IN_PROGRESS"), ("ringing", "IN_PROGRESS"),
   ("in-progress", "IN_PROGRESS"), ("answered", "IN_PROGRESS"),
   ("completed", "COMPLETED"), ("busy", "BUSY"),
   ("no-answer", "NO_ANSWER"), ("failed", "FAILED"), ("canceled", "FAILED")]

/-- `CallStatus.lower()`: ASCII lower-casing of the provider status value. -/
def lowerString (s : String) : String := String.mk (s.data.map Char.toLower)

/-- `status_webhook` (`api/webhooks.py`): maps the Twilio `CallStatus` through
`status_mapping` (defaulting to the current status for unknown values) and
assigns the result unless that would overwrite COMPLETED with a non-completed
status; stores the call duration when one is provided. -/
def status_webhook (log : CallLog) (callStatus : Option String)
    (callDuration : Option Nat) : CallLog :=
  let log2 :=
    match callStatus with
    | none => log
    | some cs =>
      let new_status := (status_mapping.lookup (lowerString cs)).getD log.status
      if log.status ≠ "COMPLETED" ∨ new_status = "COMPLETED" then
        { log with status := new_status }
      else log
  match callDuration with
  | none => log2
  | some d => { log2 with duration := some d }

/-- C7: in the WhatsApp execution unit a failed send triggers exactly one
immediate retry iff the provider error text carries the rate-limit code 63038
(second component = number of provider calls); the retried send marks the log
SENT on success and FAILED with the retry's error text on failure; any other
failure marks the log FAILED with the error text after a single call; the
email execution unit always makes exactly one call and marks failures FAILED
directly. -/
theorem rate_limit_retry_spec (log : WLog) (elog : ELog) (now : Nat)
    (first second result : SendResult) :
    ((whatsappSendStep log now first second).2 = 2 ↔
      ∃ e, first = SendResult.failure e ∧ isRateLimited e = true)
    ∧ (∀ e, first = SendResult.failure e → isRateLimited e = false →
        whatsappSendStep log now first second =
          ({ log with status := "FAILED", error_message := some e }, 1))
    ∧ (∀ e sid, first = SendResult.failure e → isRateLimited e = true →
        second = SendResult.success sid →
        whatsappSendStep log now first second =
          ({ log with status := "SENT", message_sid := some sid, sent_at := some now }, 2))
    ∧ (∀ e e2, first = SendResult.failure e → isRateLimited e = true →
        second = SendResult.failure e2 →
        whatsappSendStep log now first second =
          ({ log with status := "FAILED", error_message := some e2 }, 2))
    ∧ (emailSendStep elog now result).2 = 1
    ∧ (∀ e, result = SendResult.failure e →
        emailSendStep elog now result =
          ({ elog with status := "FAILED", error_message := some e }, 1)) := by
  refine ⟨?_, ?_, ?_, ?_, ?_, ?_⟩
  · cases first with
    | success sid => simp [whatsappSendStep]
    | failure e =>
      by_cases hr : isRateLimited e = true
      · cases second <;> simp [whatsappSendStep, hr]
      · simp only [Bool.not_eq_true] at hr
        simp [whatsappSendStep, hr]
  · intro e h1 h2
    subst h1
    simp [whatsappSendStep, h2]
  · intro e sid h1 h2 h3
    subst h1; subst h3
    simp [whatsappSendStep, h2]
  · intro e e2 h1 h2 h3
    subst h1; subst h3
    simp [whatsappSendStep, h2]
  · cases result <;> simp [emailSendStep]
  · intro e h1
    subst h1
    simp [emailSendStep]

/-- Witness for C7 at a concrete input: a rate-limited first failure followed
by a successful retry ends SENT after two provider calls. -/
theorem rate_limit_retry_spec_witness :
    whatsappSendStep { student_id := 1, status := "PENDING" } 5
        (SendResult.failure "Error 63038: rate exceeded") (SendResult.success "SM2") =
      ({ student_id := 1, status := "SENT", message_sid := some "SM2",
         sent_at := some 5 }, 2) :=
  (rate_limit_retry_spec { student_id := 1, status := "PENDING" }
      { student_id := 1, status := "PENDING" } 5
      (SendResult.failure "Error 63038: rate exceeded") (SendResult.success "SM2")
      (SendResult.success "x")).2.2.1 "Error 63038: rate exceeded" "SM2" rfl
      (by decide) rfl

theorem whatsappSendStep_status (log : WLog) (now : Nat)
    (first second : SendResult) :
    (whatsappSendStep log now first second).1.status = "SENT"
    ∨ (whatsappSendStep log now first second).1.status = "FAILED" := by
  cases first with
  | success sid => simp [whatsappSendStep]
  | failure e =>
    by_cases hr : isRateLimited e = true
    · cases second <;> simp [whatsappSendStep, hr]
    · simp only [Bool.not_eq_true] at hr
      simp [whatsappSendStep, hr]

theorem whatsappProcessLog_not_pending (now : Nat) (log : WLog) (env : WEnv) :
    ((whatsappProcessLog now log env).status == "PENDING") = false := by
  unfold whatsappProcessLog
  by_cases h : log.status = "PENDING"
  · simp only [h, if_true]
    cases hp : env.phone with
    | none => simp
    | some p =>
      rcases whatsappSendStep_status log now env.first env.second with hs | hs <;>
        simp [hs]
  · simp [h]

/-- A voice call log and environment for the C8 scenario: one pending
recipient whose call is placed successfully. -/
def c8VoiceLog : CallLog := { student_id := 1, status := "PENDING" }

def c8VoiceEnv : CEnv := { phone := some "5550100", call_sid := some "CA1" }

/-- C8 counterexample: the voice execution unit resolves its only pending log
(zero PENDING rows remain) yet leaves the campaign status at RUNNING — it
contains no completion flip, so "every channel's execution unit" is false. -/
theorem voice_unit_never_completes_counterexample :
    execute_campaign_calls "RUNNING" [(c8VoiceLog, c8VoiceEnv)] =
      ("RUNNING", [{ student_id := 1, status := "IN_PROGRESS", twilio_sid := some "CA1" }])
    ∧ List.countP (fun l => l.status == "PENDING")
        [({ student_id := 1, status := "IN_PROGRESS", twilio_sid := some "CA1" } : CallLog)] = 0
    ∧ ("RUNNING" : String) ≠ "COMPLETED" := by
  refine ⟨rfl, by decide, by decide⟩

/-- C8 amended: the WhatsApp execution unit always ends with zero PENDING
logs and flips the campaign to COMPLETED — a mix of SENT and FAILED logs
never prevents completion; the email execution unit flips to COMPLETED
exactly when no log remains PENDING or SENDING; the voice execution unit
never touches the campaign status. -/
theorem campaign_completion_spec (wst est vst : String)
    (wlogs : List (WLog × WEnv)) (elogs : List (ELog × EEnv))
    (vlogs : List (CallLog × CEnv)) (now : Nat)
    (hest : est ≠ "COMPLETED") :
    ((execute_whatsapp_campaign wst wlogs now).2.countP
        (fun l => l.status == "PENDING") = 0
      ∧ (execute_whatsapp_campaign wst wlogs now).1 = "COMPLETED")
    ∧ ((execute_email_campaign est elogs now).1 = "COMPLETED" ↔
        (execute_email_campaign est elogs now).2.countP
          (fun l => l.status == "PENDING" || l.status == "SENDING") = 0)
    ∧ (execute_campaign_calls vst vlogs).1 = vst := by
  have hcount : (wlogs.map (fun le => whatsappProcessLog now le.1 le.2)).countP
      (fun l => l.status == "PENDING") = 0 := by
    rw [List.countP_eq_zero]
    intro a ha
    simp only [List.mem_map] at ha
    obtain ⟨le, _, rfl⟩ := ha
    simp [whatsappProcessLog_not_pending]
  refine ⟨⟨?_, ?_⟩, ?_, rfl⟩
  · simpa [execute_whatsapp_campaign] using hcount
  · simp [execute_whatsapp_campaign, hcount]
  · by_cases hc : (elogs.map (fun le => emailProcessLog now le.1 le.2)).countP
        (fun l => l.status == "PENDING" || l.status == "SENDING") = 0 <;>
      simp [execute_email_campaign, hc, hest]

/-- Witness for C8 at a concrete input: a WhatsApp campaign whose two sends
end one SENT and one FAILED is still flipped to COMPLETED. -/
theorem campaign_completion_spec_witness :
    (execute_whatsapp_campaign "RUNNING"
        [({ student_id := 1, status := "PENDING" },
          { phone := some "5550100", first := SendResult.success "SM1",
            second := SendResult.success "SM1" }),
         ({ student_id := 2, status := "PENDING" },
          { phone := some "5550101", first := SendResult.failure "mailbox full",
            second := SendResult.failure "mailbox full" })] 5).1 = "COMPLETED" :=
  (campaign_completion_spec "RUNNING" "RUNNING" "RUNNING"
    [({ student_id := 1, status := "PENDING" },
      { phone := some "5550100", first := SendResult.success "SM1",
        second := SendResult.success "SM1" }),
     ({ student_id := 2, status := "PENDING" },
      { phone := some "5550101", first := SendResult.failure "mailbox full",
        second := SendResult.failure "mailbox full" })] [] [] 5 (by decide)).1.2

theorem zip_map_snd {α β : Type} (f : α → β) (l : List α) :
    ∀ p ∈ l.zip (l.map f), p.2 = f p.1 := by
  induction l with
  | nil => simp
  | cons a t ih =>
    intro p hp
    simp only [List.map_cons, List.zip_cons_cons, List.mem_cons] at hp
    rcases hp with rfl | hp
    · rfl
    · exact ih p hp

/-- C9 counterexample: a WhatsApp retry on a FAILED log that carries a
provider message id resets the log to PENDING and clears the error text, but
retains the message id — the claim's "provider artifacts cleared" is false
for the message id on the messaging channel. -/
theorem whatsapp_retry_keeps_sid_counterexample :
    retry_failed_whatsapp_messages "COMPLETED"
        [{ student_id := 1, status := "FAILED", message_sid := some "SM1",
           error_message := some "mailbox full" }] =
      ("RUNNING",
       [{ student_id := 1, status := "PENDING", message_sid := some "SM1" }], 1)
    ∧ (some "SM1" : Option String) ≠ none := by
  exact ⟨rfl, by decide⟩

/-- C9 amended: each retry endpoint reports exactly the number of logs in its
channel's retryable subset and mutates exactly those logs, resetting them to
PENDING — the voice retry clears `twilio_sid`, `recording_url` and
`transcription_text`, while the WhatsApp retry clears only `error_message`
and retains `message_sid` and `sent_at`; every other log is left entirely
unchanged; with zero retryable logs both endpoints return count 0 with the
campaign status and all logs unchanged. -/
theorem retry_frame_spec (vst wst : String) (vlogs : List CallLog)
    (wlogs : List WLog) :
    ((retry_failed_calls vst vlogs).2.2 =
        vlogs.countP (fun l => voiceRetryable.contains l.status)
      ∧ (∀ p ∈ vlogs.zip (retry_failed_calls vst vlogs).2.1,
          (voiceRetryable.contains p.1.status = false → p.2 = p.1)
          ∧ (voiceRetryable.contains p.1.status = true →
              p.2 = { p.1 with status := "PENDING", twilio_sid := none, recording_url := none, transcription_text := none }))
      ∧ (vlogs.countP (fun l => voiceRetryable.contains l.status) = 0 →
          retry_failed_calls vst vlogs = (vst, vlogs, 0)))
    ∧ ((retry_failed_whatsapp_messages wst wlogs).2.2 =
        wlogs.countP (fun l => l.status == "FAILED")
      ∧ (∀ p ∈ wlogs.zip (retry_failed_whatsapp_messages wst wlogs).2.1,
          ((p.1.status == "FAILED") = false → p.2 = p.1)
          ∧ ((p.1.status == "FAILED") = true →
              p.2 = { p.1 with status := "PENDING", error_message := none })
          ∧ p.2.message_sid = p.1.message_sid ∧ p.2.sent_at = p.1.sent_at)
      ∧ (wlogs.countP (fun l => l.status == "FAILED") = 0 →
          retry_failed_whatsapp_messages wst wlogs = (wst, wlogs, 0))) := by
  constructor
  · by_cases h0 : vlogs.countP (fun l => voiceRetryable.contains l.status) = 0
    · have hres : retry_failed_calls vst vlogs = (vst, vlogs, 0) := by
        unfold retry_failed_calls
        rw [if_pos h0]
      rw [hres]
      refine ⟨h0.symm, ?_, fun _ => rfl⟩
      intro p hp
      have hzip := zip_map_snd id vlogs
      rw [List.map_id] at hzip
      have hpq : p.2 = p.1 := hzip p hp
      refine ⟨fun _ => hpq, fun hr => ?_⟩
      exact absurd hr (by
        have := (List.countP_eq_zero.mp h0) p.1 (List.of_mem_zip hp).1
        simpa using this)
    · have hres : retry_failed_calls vst vlogs =
          ("RUNNING",
           vlogs.map (fun l =>
             if voiceRetryable.contains l.status then
               { l with status := "PENDING", twilio_sid := none, recording_url := none, transcription_text := none }
             else l),
           vlogs.countP (fun l => voiceRetryable.contains l.status)) := by
        unfold retry_failed_calls
        rw [if_neg h0]
      rw [hres]
      refine ⟨rfl, ?_, fun hc => absurd hc h0⟩
      intro p hp
      have hpq := zip_map_snd _ vlogs p hp
      by_cases hb : voiceRetryable.contains p.1.status = true
      · refine ⟨fun hf => absurd (hf ▸ hb) Bool.false_ne_true, fun _ => ?_⟩
        rw [hpq, if_pos hb]
      · refine ⟨fun _ => ?_, fun ht => absurd ht hb⟩
        rw [hpq, if_neg hb]
  · by_cases h0 : wlogs.countP (fun l => l.status == "FAILED") = 0
    · have hemp : (wlogs.filter (fun l => l.status == "FAILED")).isEmpty = true := by
        rw [List.isEmpty_iff_length_eq_zero, ← List.countP_eq_length_filter]
        exact h0
      have hres : retry_failed_whatsapp_messages wst wlogs = (wst, wlogs, 0) := by
        unfold retry_failed_whatsapp_messages
        rw [if_pos hemp]
      rw [hres]
      refine ⟨h0.symm, ?_, fun _ => rfl⟩
      intro p hp
      have hzip := zip_map_snd id wlogs
      rw [List.map_id] at hzip
      have hpq : p.2 = p.1 := hzip p hp
      have hnf : (p.1.status == "FAILED") = false := by
        have := (List.countP_eq_zero.mp h0) p.1 (List.of_mem_zip hp).1
        simpa using this
      exact ⟨fun _ => hpq, fun hr => absurd (hnf ▸ hr) Bool.false_ne_true,
        by rw [hpq], by rw [hpq]⟩
    · have h1 : ¬ (wlogs.filter (fun l => l.status == "FAILED")).isEmpty = true := by
        rw [List.isEmpty_iff_length_eq_zero, ← List.countP_eq_length_filter]
        exact h0
      have hemp : (wlogs.filter (fun l => l.status == "FAILED")).isEmpty = false := by
        cases hB : (wlogs.filter (fun l => l.status == "FAILED")).isEmpty
        · rfl
        · exact absurd hB h1
      have hres : retry_failed_whatsapp_messages wst wlogs =
          ((if wst = "COMPLETED" ∨ wst = "FAILED" then "RUNNING" else wst),
           wlogs.map (fun l =>
             if l.status == "FAILED" then { l with status := "PENDING", error_message := none }
             else l),
           (wlogs.filter (fun l => l.status == "FAILED")).length) := by
        unfold retry_failed_whatsapp_messages
        rw [if_neg h1]
      rw [hres]
      refine ⟨by rw [← List.countP_eq_length_filter], ?_, fun hc => absurd hc h0⟩
      intro p hp
      have hpq := zip_map_snd _ wlogs p hp
      by_cases hb : (p.1.status == "FAILED") = true
      · refine ⟨fun hf => absurd (hf ▸ hb) Bool.false_ne_true, fun _ => ?_, ?_, ?_⟩ <;>
          rw [hpq, if_pos hb]
      · refine ⟨fun _ => ?_, fun ht => absurd ht hb, ?_, ?_⟩ <;>
          rw [hpq, if_neg hb]

/-- Witness for the amended C9 at a concrete input: a campaign with no
retryable call logs reports a count of zero and changes nothing. -/
theorem retry_frame_spec_witness :
    retry_failed_calls "COMPLETED" [{ student_id := 1, status := "COMPLETED" }] =
      ("COMPLETED", [{ student_id := 1, status := "COMPLETED" }], 0) :=
  (retry_frame_spec "COMPLETED" "RUNNING"
    [{ student_id := 1, status := "COMPLETED" }] []).1.2.2 (by decide)

/-- C10: a voice status callback never overwrites a COMPLETED log status —
whatever status the provider reports, a COMPLETED log stays COMPLETED (the
completed report merely re-affirms it) — while for a log not in COMPLETED the
callback stores exactly the status given by the fixed `status_mapping`
lookup; a callback without a `CallStatus` leaves the status unchanged. -/
theorem webhook_completed_monotonic (log : CallLog) (cs : String)
    (dur : Option Nat) :
    (log.status = "COMPLETED" →
      (status_webhook log (some cs) dur).status = "COMPLETED")
    ∧ (∀ m, log.status ≠ "COMPLETED" →
        status_mapping.lookup (lowerString cs) = some m →
        (status_webhook log (some cs) dur).status = m)
    ∧ (status_webhook log none dur).status = log.status := by
  refine ⟨?_, ?_, ?_⟩
  · intro h
    cases hl : status_mapping.lookup (lowerString cs) with
    | none => cases dur <;> simp [status_webhook, hl, h]
    | some m =>
      by_cases hm : m = "COMPLETED" <;>
        cases dur <;> simp [status_webhook, hl, h, hm]
  · intro m h hl
    cases dur <;> simp [status_webhook, hl, h]
  · cases dur <;> simp [status_webhook]

/-- Witness for C10 at a concrete input: an IN_PROGRESS log receiving a
`Completed` callback is stored COMPLETED. -/
theorem webhook_completed_monotonic_witness :
    (status_webhook { student_id := 1, status := "IN_PROGRESS" }
        (some "Completed") (some 30)).status = "COMPLETED" :=
  (webhook_completed_monotonic { student_id := 1, status := "IN_PROGRESS" }
    "Completed" (some 30)).2.1 "COMPLETED" (by decide) (by decide)

end TnP
